import Mathlib

/-! Shallow embedding of the nutrition/hydration tracking bot (`src/bot.py`).

Numeric conventions: Python floats are modeled as rationals, Python ints as
integers.  Python `int(x)` applied to a float is truncation toward zero
(`pyInt`).  Python `//` and `%` on integers are floor division and floor
modulus (`Int.fdiv`, `Int.fmod`).  Parsing by `float(...)` / `int(...)` is
modeled for finite decimal literals (optional sign, digits, at most one
decimal point); exotic forms (exponents, special values, underscores,
surrounding whitespace) are outside the parser model, and the float
special value NaN, which the weight/height range guards mishandle, is
analyzed separately over `PyFloatVal`.  Reply texts are abstracted
to a `Reply` tag.  The similarity score `difflib.SequenceMatcher(...).ratio()`
is an abstract parameter `sim`, since no claim depends on its concrete values,
and Python `str.lower()` is omitted: the catalog keys are already lowercase
and modeled inputs are taken after lowercasing. -/

/-- Python `int(q)` on a float: truncation toward zero. -/
def pyInt (q : ℚ) : ℤ := if 0 ≤ q then ⌊q⌋ else ⌈q⌉

/-- Map a function over the characters of a string. -/
def mapStr (f : Char → Char) (s : String) : String := ⟨s.data.map f⟩

/-- Replace each comma by a dot, as in Python `text.replace(",", ".")`. -/
def commaToDot (c : Char) : Char := if c = ',' then '.' else c

/-- Replace each dot by a comma (used to state the decimal-comma claim). -/
def dotToComma (c : Char) : Char := if c = '.' then ',' else c

/-- Python `str.strip()`: drop leading and trailing whitespace. -/
def pyStrip (s : String) : String :=
  ⟨((s.data.dropWhile Char.isWhitespace).reverse.dropWhile Char.isWhitespace).reverse⟩

/-- Numeric value of a list of decimal digit characters. -/
def digitsVal (l : List Char) : ℕ :=
  l.foldl (fun n c => 10 * n + (c.toNat - 48)) 0

/-- All characters are decimal digits. -/
def allDigits (l : List Char) : Bool := l.all Char.isDigit

/-- Parse a nonempty all-digit character list to a natural number. -/
def parseIntCore (l : List Char) : Option ℕ :=
  if l ≠ [] ∧ allDigits l = true then some (digitsVal l) else none

/-- Body of Python `int(s)` on the character list of `s`: optional sign,
then decimal digits. -/
def pyIntAux (l : List Char) : Option ℤ :=
  match l with
  | [] => none
  | c :: rest =>
    if c = '-' then (parseIntCore rest).map (fun n => -(n : ℤ))
    else if c = '+' then (parseIntCore rest).map (fun n => (n : ℤ))
    else (parseIntCore (c :: rest)).map (fun n => (n : ℤ))

/-- Python `int(s)` on a decimal string (`ValueError` is `none`). -/
def pyIntParse (s : String) : Option ℤ := pyIntAux s.data

/-- Unsigned part of Python `float(s)`: digits with at most one decimal
point, at least one digit overall. -/
def parseFloatCore (l : List Char) : Option ℚ :=
  let ip := l.takeWhile (fun c => c ≠ '.')
  match l.dropWhile (fun c => c ≠ '.') with
  | [] => (parseIntCore ip).map (fun n => (n : ℚ))
  | _ :: fp =>
    if allDigits ip = true ∧ allDigits fp = true ∧ (ip ≠ [] ∨ fp ≠ []) then
      some ((digitsVal ip : ℚ) + (digitsVal fp : ℚ) / (10 : ℚ) ^ fp.length)
    else none

/-- Body of Python `float(s)`: optional sign then an unsigned decimal. -/
def pyFloatAux (l : List Char) : Option ℚ :=
  match l with
  | [] => none
  | c :: rest =>
    if c = '-' then (parseFloatCore rest).map (fun q => -q)
    else if c = '+' then parseFloatCore rest
    else parseFloatCore (c :: rest)

/-- Python `float(s)` on a decimal string (`ValueError` is `none`). -/
def pyFloat (s : String) : Option ℚ := pyFloatAux s.data

/-- Parse used by the float-valued profile steps:
`float(message.text.replace(",", "."))`. -/
def parseFloatField (s : String) : Option ℚ := pyFloat (mapStr commaToDot s)

/-- Calories per minute for each workout type (`WORKOUT_CALORIES`,
`src/bot.py` lines 80-88), in source order. -/
def WORKOUT_CALORIES : List (String × ℤ) :=
  [("бег", 10), ("ходьба", 5), ("плавание", 8), ("велосипед", 7),
   ("силовая", 6), ("йога", 3), ("кардио", 8)]

/-- A food database entry: display name and calories per 100 g. -/
structure FoodEntry where
  name : String
  calories : ℚ
deriving DecidableEq

set_option maxHeartbeats 2000000 in
/-- Local food database (`LOCAL_FOOD_DATABASE`, `src/bot.py` lines 91-199),
as an association list in source (= dict insertion) order. -/
def LOCAL_FOOD_DATABASE : List (String × FoodEntry) :=
  [("банан", ⟨"Банан", 89⟩),
   ("яблоко", ⟨"Яблоко", 52⟩),
   ("апельсин", ⟨"Апельсин", 47⟩),
   ("груша", ⟨"Груша", 57⟩),
   ("виноград", ⟨"Виноград", 67⟩),
   ("клубника", ⟨"Клубника", 33⟩),
   ("арбуз", ⟨"Арбуз", 30⟩),
   ("дыня", ⟨"Дыня", 34⟩),
   ("персик", ⟨"Персик", 39⟩),
   ("манго", ⟨"Манго", 60⟩),
   ("киви", ⟨"Киви", 61⟩),
   ("ананас", ⟨"Ананас", 50⟩),
   ("авокадо", ⟨"Авокадо", 160⟩),
   ("огурец", ⟨"Огурец", 15⟩),
   ("помидор", ⟨"Помидор", 18⟩),
   ("морковь", ⟨"Морковь", 41⟩),
   ("капуста", ⟨"Капуста белокочанная", 25⟩),
   ("брокколи", ⟨"Брокколи", 34⟩),
   ("картофель", ⟨"Картофель", 77⟩),
   ("лук", ⟨"Лук репчатый", 40⟩),
   ("перец", ⟨"Перец болгарский", 27⟩),
   ("баклажан", ⟨"Баклажан", 25⟩),
   ("кабачок", ⟨"Кабачок", 17⟩),
   ("свекла", ⟨"Свёкла", 43⟩),
   ("шпинат", ⟨"Шпинат", 23⟩),
   ("салат", ⟨"Салат листовой", 14⟩),
   ("молоко", ⟨"Молоко 2.5%", 52⟩),
   ("кефир", ⟨"Кефир 2.5%", 50⟩),
   ("творог", ⟨"Творог 5%", 121⟩),
   ("сыр", ⟨"Сыр твёрдый", 350⟩),
   ("йогурт", ⟨"Йогурт натуральный", 60⟩),
   ("сметана", ⟨"Сметана 15%", 158⟩),
   ("масло", ⟨"Масло сливочное", 748⟩),
   ("курица", ⟨"Куриная грудка", 113⟩),
   ("говядина", ⟨"Говядина", 187⟩),
   ("свинина", ⟨"Свинина", 259⟩),
   ("индейка", ⟨"Индейка", 104⟩),
   ("рыба", ⟨"Рыба (средняя)", 120⟩),
   ("лосось", ⟨"Лосось", 208⟩),
   ("тунец", ⟨"Тунец", 130⟩),
   ("креветки", ⟨"Креветки", 95⟩),
   ("рис", ⟨"Рис варёный", 130⟩),
   ("гречка", ⟨"Гречка варёная", 110⟩),
   ("овсянка", ⟨"Овсянка варёная", 88⟩),
   ("макароны", ⟨"Макароны варёные", 131⟩),
   ("хлеб", ⟨"Хлеб белый", 265⟩),
   ("хлеб черный", ⟨"Хлеб чёрный", 201⟩),
   ("яйцо", ⟨"Яйцо куриное", 155⟩),
   ("яичница", ⟨"Яичница", 196⟩),
   ("омлет", ⟨"Омлет", 154⟩),
   ("кофе", ⟨"Кофе без сахара", 2⟩),
   ("чай", ⟨"Чай без сахара", 0⟩),
   ("сок", ⟨"Сок апельсиновый", 45⟩),
   ("кола", ⟨"Кола", 42⟩),
   ("капучино", ⟨"Капучино", 45⟩),
   ("латте", ⟨"Латте", 56⟩),
   ("раф", ⟨"Раф кофе", 85⟩),
   ("лавандовый раф", ⟨"Лавандовый раф", 95⟩),
   ("шоколад", ⟨"Шоколад молочный", 535⟩),
   ("печенье", ⟨"Печенье", 417⟩),
   ("торт", ⟨"Торт (средний)", 350⟩),
   ("мороженое", ⟨"Мороженое", 207⟩),
   ("конфеты", ⟨"Конфеты шоколадные", 490⟩),
   ("пирожное", ⟨"Пирожное", 320⟩),
   ("штрудель", ⟨"Штрудель яблочный", 227⟩),
   ("пицца", ⟨"Пицца", 266⟩),
   ("бургер", ⟨"Бургер", 295⟩),
   ("картошка фри", ⟨"Картофель фри", 312⟩),
   ("наггетсы", ⟨"Куриные наггетсы", 296⟩),
   ("шаурма", ⟨"Шаурма", 210⟩),
   ("хот-дог", ⟨"Хот-дог", 290⟩),
   ("орехи", ⟨"Орехи (смесь)", 607⟩),
   ("арахис", ⟨"Арахис", 567⟩),
   ("миндаль", ⟨"Миндаль", 576⟩),
   ("грецкий орех", ⟨"Грецкий орех", 654⟩),
   ("семечки", ⟨"Семечки подсолнуха", 578⟩),
   ("каша", ⟨"Каша на молоке", 102⟩),
   ("молочная каша", ⟨"Каша молочная", 102⟩),
   ("мюсли", ⟨"Мюсли", 352⟩),
   ("хлопья", ⟨"Кукурузные хлопья", 357⟩),
   ("борщ", ⟨"Борщ", 49⟩),
   ("щи", ⟨"Щи", 31⟩),
   ("суп", ⟨"Суп куриный", 36⟩),
   ("солянка", ⟨"Солянка", 69⟩)]

/-- Does `a` occur as a contiguous sublist of `b`? -/
def occursIn (a : List Char) : List Char → Bool
  | [] => a.isEmpty
  | c :: t => List.isPrefixOf a (c :: t) || occursIn a t

/-- Python `a in b` on strings: contiguous substring test. -/
def pyIn (a b : String) : Bool := occursIn a.data b.data

/-- Fuzzy-matching loop of `find_in_local_db` (`src/bot.py` lines 239-258):
for each catalog entry, first update the best score and match (strict
improvement only, so the first highest score wins), then return the entry
immediately if its key and the query are in a substring relation; after
the loop, return the best match only if its score exceeds 0.6. -/
def fuzzyLoop (sim : String → String → ℚ) (s : String) :
    List (String × FoodEntry) → ℚ → Option FoodEntry → Option FoodEntry
  | [], best_score, best_match =>
    if (0.6 : ℚ) < best_score then best_match else none
  | (k, v) :: rest, best_score, best_match =>
    let score := sim s k
    let new_score := if best_score < score then score else best_score
    let new_match := if best_score < score then some v else best_match
    if pyIn k s || pyIn s k then some v
    else fuzzyLoop sim s rest new_score new_match

/-- The spec's `FoodCatalog.fuzzy_lookup` on an already-normalized name:
the fuzzy stage of `find_in_local_db`, starting from score 0 / no match. -/
def fuzzy_lookup (sim : String → String → ℚ) (s : String) : Option FoodEntry :=
  fuzzyLoop sim s LOCAL_FOOD_DATABASE 0 none

/-- The spec's `FoodCatalog.exact_lookup` on an already-normalized name:
direct dictionary key lookup (`src/bot.py` line 236). -/
def exact_lookup (s : String) : Option FoodEntry :=
  LOCAL_FOOD_DATABASE.lookup s

/-- `find_in_local_db` (`src/bot.py` lines 231-258): normalize (strip;
lowercasing omitted, see the file comment), try the exact lookup, then the
fuzzy loop. -/
def find_in_local_db (sim : String → String → ℚ) (product_name : String) :
    Option FoodEntry :=
  let product_lower := pyStrip product_name
  match exact_lookup product_lower with
  | some v => some v
  | none => fuzzy_lookup sim product_lower

/-- Outcome of the external OpenFoodFacts lookup (`src/bot.py` lines
272-287), as observed by `get_food_info`: a raised exception or timeout, a
non-200 HTTP status, an empty product list, or a first product with a name
(`none` when the response lacks `product_name`) and an `energy-kcal_100g`
value (`0` when the response lacks it, matching the `.get(..., 0)` default). -/
inductive ExtOutcome where
  | failure
  | badStatus
  | noProducts
  | found (pname : Option String) (calories : ℚ)
deriving DecidableEq

/-- `get_food_info` (`src/bot.py` lines 261-289): local database first;
otherwise the external lookup, whose result is used only when its calorie
value is nonzero (Python truthiness of `calories`); every other external
outcome, including exceptions, yields `none`. -/
def get_food_info (sim : String → String → ℚ) (ext : ExtOutcome)
    (product_name : String) : Option FoodEntry :=
  match find_in_local_db sim product_name with
  | some e => some e
  | none =>
    match ext with
    | ExtOutcome.found pname cal =>
      if cal ≠ 0 then some ⟨pname.getD product_name, cal⟩ else none
    | _ => none

/-- `calculate_water_goal` (`src/bot.py` lines 305-322). -/
def calculate_water_goal (weight : ℚ) (activity_minutes : ℤ)
    (temperature : Option ℚ) : ℤ :=
  let base : ℚ := weight * 30
  let activity_bonus : ℤ := Int.fdiv activity_minutes 30 * 500
  let weather_bonus : ℤ :=
    match temperature with
    | none => 0
    | some t => if 30 < t then 1000 else if 25 < t then 500 else 0
  pyInt (base + (activity_bonus : ℚ) + (weather_bonus : ℚ))

/-- `calculate_calorie_goal` (`src/bot.py` lines 325-333). -/
def calculate_calorie_goal (weight height : ℚ) (age activity_minutes : ℤ) : ℤ :=
  let base : ℚ := 10 * weight + 6.25 * height - 5 * (age : ℚ)
  let activity_bonus : ℤ := activity_minutes * 5
  pyInt (base + (activity_bonus : ℚ))

/-- An aiogram FSM state of this bot: one of the five `ProfileSetup` states
or the `FoodLogging.waiting_for_grams` state. -/
inductive DialogState where
  | weight
  | height
  | age
  | activity
  | city
  | waitingForGrams
deriving DecidableEq

/-- The per-user FSM data dictionary (`state.update_data` keys). A field is
`none` when its key is absent. -/
structure FSMData where
  weight : Option ℚ
  height : Option ℚ
  age : Option ℤ
  activity : Option ℤ
  food_name : Option String
  food_calories : Option ℚ
deriving DecidableEq

/-- The FSM data dictionary right after `state.clear()`. -/
def emptyFSMData : FSMData := ⟨none, none, none, none, none, none⟩

/-- One user's entry in the global `users` dict (`src/bot.py` lines
506-518). The `history` list, used only for charts and never written, is
omitted. -/
structure UserData where
  weight : ℚ
  height : ℚ
  age : ℤ
  activity : ℤ
  city : String
  water_goal : ℤ
  calorie_goal : ℤ
  logged_water : ℤ
  logged_calories : ℚ
  burned_calories : ℤ
deriving DecidableEq

/-- The whole per-user state: the user's `users` entry (absent before
profile setup), the current FSM state, and the FSM data. -/
structure BotState where
  user : Option UserData
  fsmState : Option DialogState
  fsmData : FSMData
deriving DecidableEq

/-- The kind of reply a handler sends; message text is abstracted away. -/
inductive Reply where
  | profileRequired
  | usage
  | invalid
  | notFound
  | askNext
  | profileSaved
  | askGrams
  | logged
  | progress
deriving DecidableEq

/-- `process_weight` (`src/bot.py` lines 435-447): parse
`float(text.replace(",", "."))`; out-of-range or unparsable input replies
with an error and changes nothing; otherwise store the weight and advance
to the height step. -/
def process_weight (text : String) (st : BotState) : Reply × BotState :=
  match parseFloatField text with
  | none => (Reply.invalid, st)
  | some weight =>
    if weight ≤ 0 ∨ 500 < weight then (Reply.invalid, st)
    else (Reply.askNext,
      { st with fsmState := some DialogState.height,
                fsmData := { st.fsmData with weight := some weight } })

/-- `process_height` (`src/bot.py` lines 449-460). -/
def process_height (text : String) (st : BotState) : Reply × BotState :=
  match parseFloatField text with
  | none => (Reply.invalid, st)
  | some height =>
    if height ≤ 0 ∨ 300 < height then (Reply.invalid, st)
    else (Reply.askNext,
      { st with fsmState := some DialogState.age,
                fsmData := { st.fsmData with height := some height } })

/-- `process_age` (`src/bot.py` lines 463-474): parses with `int(text)`,
with no comma replacement. -/
def process_age (text : String) (st : BotState) : Reply × BotState :=
  match pyIntParse text with
  | none => (Reply.invalid, st)
  | some age =>
    if age ≤ 0 ∨ 150 < age then (Reply.invalid, st)
    else (Reply.askNext,
      { st with fsmState := some DialogState.activity,
                fsmData := { st.fsmData with age := some age } })

/-- `process_activity` (`src/bot.py` lines 477-488). -/
def process_activity (text : String) (st : BotState) : Reply × BotState :=
  match pyIntParse text with
  | none => (Reply.invalid, st)
  | some activity =>
    if activity < 0 ∨ 1440 < activity then (Reply.invalid, st)
    else (Reply.askNext,
      { st with fsmState := some DialogState.city,
                fsmData := { st.fsmData with activity := some activity } })

/-- `process_city` (`src/bot.py` lines 491-536): strip the city text, call
the weather collaborator `gw` (best effort), compute both goals, replace
the user's `users` entry wholesale with zeroed totals, and clear the FSM
state and data. Reading a missing data key would raise `KeyError` in
Python; that path is unreachable in the dialog flow and modeled as a
no-op reply. -/
def process_city (gw : String → Option ℚ) (text : String) (st : BotState) :
    Reply × BotState :=
  let city := pyStrip text
  match st.fsmData.weight, st.fsmData.height, st.fsmData.age, st.fsmData.activity with
  | some w, some h, some a, some act =>
    let temperature := gw city
    let water_goal := calculate_water_goal w act temperature
    let calorie_goal := calculate_calorie_goal w h a act
    (Reply.profileSaved,
      { user := some { weight := w, height := h, age := a, activity := act,
                       city := city, water_goal := water_goal,
                       calorie_goal := calorie_goal, logged_water := 0,
                       logged_calories := 0, burned_calories := 0 },
        fsmState := none, fsmData := emptyFSMData })
  | _, _, _, _ => (Reply.invalid, st)

/-- `cmd_log_water` (`src/bot.py` lines 539-569). `arg` is the part of the
message after the command name (`none` when absent). -/
def cmd_log_water (arg : Option String) (st : BotState) : Reply × BotState :=
  match st.user with
  | none => (Reply.profileRequired, st)
  | some u =>
    match arg with
    | none => (Reply.usage, st)
    | some t =>
      match pyIntParse t with
      | none => (Reply.invalid, st)
      | some amount =>
        if amount ≤ 0 then (Reply.invalid, st)
        else (Reply.logged,
          { st with user := some { u with logged_water := u.logged_water + amount } })

/-- `cmd_log_food` (`src/bot.py` lines 572-605). `arg` is the free-text
product name after the command (`none` when absent). A resolution that
fails or reports 0 calories is rejected; otherwise the resolved name and
calories are stored and the dialog enters `waiting_for_grams`. -/
def cmd_log_food (sim : String → String → ℚ) (ext : ExtOutcome)
    (arg : Option String) (st : BotState) : Reply × BotState :=
  match st.user with
  | none => (Reply.profileRequired, st)
  | some _ =>
    match arg with
    | none => (Reply.usage, st)
    | some product_name =>
      match get_food_info sim ext product_name with
      | none => (Reply.notFound, st)
      | some info =>
        if info.calories = 0 then (Reply.notFound, st)
        else (Reply.askGrams,
          { st with
              fsmState := some DialogState.waitingForGrams,
              fsmData := { st.fsmData with
                food_name := some info.name,
                food_calories := some info.calories } })

/-- `process_food_grams` (`src/bot.py` lines 608-629): parse the grams as
`float(text.replace(",", "."))`, reject non-positive values, log
`calories_per_100g / 100 * grams` and clear the session. A missing user or
missing data key would raise `KeyError` in Python; that path is
unreachable (the state is only entered from `cmd_log_food` with a
profile present) and modeled as a no-op reply. -/
def process_food_grams (text : String) (st : BotState) : Reply × BotState :=
  match st.user, st.fsmData.food_calories with
  | some u, some food_calories =>
    match parseFloatField text with
    | none => (Reply.invalid, st)
    | some grams =>
      if grams ≤ 0 then (Reply.invalid, st)
      else
        let calories := food_calories / 100 * grams
        (Reply.logged,
          { st with user := some { u with logged_calories := u.logged_calories + calories },
                    fsmState := none, fsmData := emptyFSMData })
  | _, _ => (Reply.invalid, st)

/-- `cmd_log_workout` (`src/bot.py` lines 632-686). `args` is the pair of
the (already lowercased) workout type and the minutes text (`none` when
fewer than two arguments follow the command). -/
def cmd_log_workout (args : Option (String × String)) (st : BotState) :
    Reply × BotState :=
  match st.user with
  | none => (Reply.profileRequired, st)
  | some u =>
    match args with
    | none => (Reply.usage, st)
    | some (workout_type, mtext) =>
      match pyIntParse mtext with
      | none => (Reply.invalid, st)
      | some minutes =>
        if minutes ≤ 0 then (Reply.invalid, st)
        else
          let calories_per_min := (WORKOUT_CALORIES.lookup workout_type).getD 5
          let burned_calories := calories_per_min * minutes
          let extra_water :=
            Int.fdiv minutes 30 * 200 +
              (if 0 < Int.fmod minutes 30 then 200 else 0)
          let u2 := { u with
            burned_calories := u.burned_calories + burned_calories,
            water_goal := u.water_goal + extra_water }
          (Reply.logged, { st with user := some u2 })

/-- `cmd_check_progress` (`src/bot.py` lines 689-718): read-only; replies
with the progress report and changes nothing. -/
def cmd_check_progress (st : BotState) : Reply × BotState :=
  match st.user with
  | none => (Reply.profileRequired, st)
  | some _ => (Reply.progress, st)

/-- Weather bonus exactly as the claim words it: 1000 if the temperature
exceeds 30, 500 if it exceeds 25, otherwise (or when unknown) 0. -/
def weather_bonus_spec (temperature : Option ℚ) : ℤ :=
  match temperature with
  | none => 0
  | some t => if 30 < t then 1000 else if 25 < t then 500 else 0

/-- Substring relation used by the fuzzy lookup claim: the catalog key
occurs in the query or the query occurs in the key. -/
def subRel (s k : String) : Bool := pyIn k s || pyIn s k

/-- Best-score scan as the claim words it: highest similarity score, first
encountered entry winning ties (strict improvement only). -/
def bestScan (sim : String → String → ℚ) (s : String) :
    List (String × FoodEntry) → ℚ → Option FoodEntry → ℚ × Option FoodEntry
  | [], best_score, best_match => (best_score, best_match)
  | (k, v) :: rest, best_score, best_match =>
    if best_score < sim s k then bestScan sim s rest (sim s k) (some v)
    else bestScan sim s rest best_score best_match

/-- Fuzzy lookup exactly as the claim words it: the first entry in catalog
order whose key is in a substring relation with the (normalized) input is
returned immediately regardless of score; otherwise the entry with the
highest score, ties broken by first encounter, and only if that score
exceeds 0.6; otherwise `none`. -/
def fuzzySpec (sim : String → String → ℚ) (s : String) : Option FoodEntry :=
  match LOCAL_FOOD_DATABASE.find? (fun kv => subRel s kv.1) with
  | some kv => some kv.2
  | none =>
    let best := bestScan sim s LOCAL_FOOD_DATABASE 0 none
    if (0.6 : ℚ) < best.1 then best.2 else none

/-- Does a profile-setup step accept the given answer text (parse succeeds
and the value is in range)? -/
def stepAccepts (step : DialogState) (text : String) : Bool :=
  match step with
  | DialogState.weight =>
    match parseFloatField text with
    | some w => decide (0 < w ∧ w ≤ 500)
    | none => false
  | DialogState.height =>
    match parseFloatField text with
    | some h => decide (0 < h ∧ h ≤ 300)
    | none => false
  | DialogState.age =>
    match pyIntParse text with
    | some n => decide (0 < n ∧ n ≤ 150)
    | none => false
  | DialogState.activity =>
    match pyIntParse text with
    | some n => decide (0 ≤ n ∧ n ≤ 1440)
    | none => false
  | _ => false

/-- The comma-written form of an answer: each decimal point written as a
decimal comma. -/
def commaForm (s : String) : String := mapStr dotToComma s

/-- The raw numeric parse performed at each numeric profile-setup step
(before range validation), as a rational value. -/
def stepRawParse (step : DialogState) (text : String) : Option ℚ :=
  match step with
  | DialogState.weight => parseFloatField text
  | DialogState.height => parseFloatField text
  | DialogState.age => (pyIntParse text).map (fun n => (n : ℚ))
  | DialogState.activity => (pyIntParse text).map (fun n => (n : ℚ))
  | _ => none

/-- A fixed similarity function for concrete witnesses (its values are
irrelevant to the claims). -/
def sim0 : String → String → ℚ := fun _ _ => 0

/-- A sample completed profile used by concrete witnesses. -/
def sampleUser : UserData :=
  { weight := 70, height := 175, age := 30, activity := 45,
    city := "Москва", water_goal := 3100, calorie_goal := 1868,
    logged_water := 0, logged_calories := 0, burned_calories := 0 }

/-- A sample idle state with a completed profile. -/
def sampleState : BotState :=
  { user := some sampleUser, fsmState := none, fsmData := emptyFSMData }

/-- A sample empty state (no profile yet). -/
def freshState : BotState :=
  { user := none, fsmState := none, fsmData := emptyFSMData }

/-- A fixed weather collaborator for concrete witnesses: every city
reports 28 degrees. -/
def gw28 : String → Option ℚ := fun _ => some 28

/-- A sample state at the start of profile setup (no profile yet, weight
step active). -/
def setupState : BotState :=
  { user := none, fsmState := some DialogState.weight, fsmData := emptyFSMData }

/-- A sample state in the middle of food logging: awaiting grams for a
resolved entry of 89 kcal per 100 g. -/
def gramsState : BotState :=
  { user := some sampleUser, fsmState := some DialogState.waitingForGrams,
    fsmData := { emptyFSMData with
      food_name := some ("Банан"), food_calories := some 89 } }

/-- A Python float value as relevant to the profile range guards: a
finite value, or the special value NaN that `float("nan")` returns.
NaN is not representable among the rationals, so the guard of the
weight/height steps is analyzed over this type separately from the
decimal-literal parser model. -/
inductive PyFloatVal where
  | finite (q : ℚ)
  | nan
deriving DecidableEq

/-- Python `x <= c` on a float: every comparison with NaN is False. -/
def pyLe (v : PyFloatVal) (c : ℚ) : Bool :=
  match v with
  | PyFloatVal.finite q => decide (q ≤ c)
  | PyFloatVal.nan => false

/-- Python `x > c` on a float: every comparison with NaN is False. -/
def pyGt (v : PyFloatVal) (c : ℚ) : Bool :=
  match v with
  | PyFloatVal.finite q => decide (c < q)
  | PyFloatVal.nan => false

/-- The weight-step rejection condition `weight <= 0 or weight > 500`
(`src/bot.py` line 440) over Python float comparison semantics. -/
def weightRejected (v : PyFloatVal) : Bool := pyLe v 0 || pyGt v 500

/-- The height-step rejection condition `height <= 0 or height > 300`
(`src/bot.py` line 454) over Python float comparison semantics. -/
def heightRejected (v : PyFloatVal) : Bool := pyLe v 0 || pyGt v 300

/-- Floor of an integer divided by 30, as integer floor division. -/
theorem floor_div30 (a : ℤ) : ⌊(a : ℚ) / 30⌋ = Int.fdiv a 30 := by
  rw [Int.fdiv_eq_ediv a (by norm_num : (0:ℤ) ≤ 30)]
  rw [show ((30 : ℚ)) = ((30 : ℕ) : ℚ) by norm_num]
  exact_mod_cast Rat.floor_intCast_div_natCast a 30

/-- Ceiling of an integer divided by 30, as negated floor division. -/
theorem ceil_div30 (m : ℤ) : ⌈(m : ℚ) / 30⌉ = -Int.fdiv (-m) 30 := by
  have h : ⌊-((m : ℚ) / 30)⌋ = Int.fdiv (-m) 30 := by
    rw [show -((m : ℚ) / 30) = ((-m : ℤ) : ℚ) / 30 by push_cast; ring]
    exact floor_div30 (-m)
  rw [Int.floor_neg] at h
  omega

/-- The workout water bonus computed by the code equals `200 * ceil(m/30)`. -/
theorem extra_water_eq_ceil (m : ℤ) :
    Int.fdiv m 30 * 200 + (if 0 < Int.fmod m 30 then 200 else 0) =
      200 * ⌈(m : ℚ) / 30⌉ := by
  rw [ceil_div30]
  have h1 : Int.fdiv m 30 = m / 30 := Int.fdiv_eq_ediv m (by norm_num)
  have h2 : Int.fdiv (-m) 30 = (-m) / 30 := Int.fdiv_eq_ediv (-m) (by norm_num)
  have h3 : Int.fmod m 30 = m % 30 := Int.fmod_eq_emod m (by norm_num)
  rw [h1, h2, h3]
  split <;> omega

/-- The water goal computed by the code equals the claim's floor formula
over the documented ranges (positive weight, nonnegative activity). -/
theorem water_goal_floor (w : ℚ) (act : ℤ) (t : Option ℚ)
    (hw : 0 < w) (hact : 0 ≤ act) :
    calculate_water_goal w act t =
      ⌊w * 30 + ((⌊(act : ℚ) / 30⌋ : ℤ) : ℚ) * 500 + ((weather_bonus_spec t : ℤ) : ℚ)⌋ := by
  have hfd : (0:ℤ) ≤ Int.fdiv act 30 := Int.fdiv_nonneg hact (by norm_num)
  have h1 : (0:ℚ) ≤ (Int.fdiv act 30 : ℚ) := by exact_mod_cast hfd
  have key : ∀ b : ℤ, 0 ≤ b →
      pyInt (w * 30 + ((Int.fdiv act 30 * 500 : ℤ) : ℚ) + ((b : ℤ) : ℚ)) =
        ⌊w * 30 + ((⌊(act : ℚ) / 30⌋ : ℤ) : ℚ) * 500 + ((b : ℤ) : ℚ)⌋ := by
    intro b hb
    have h2 : (0:ℚ) ≤ (b : ℚ) := by exact_mod_cast hb
    have hsum : (0:ℚ) ≤ w * 30 + ((Int.fdiv act 30 * 500 : ℤ) : ℚ) + ((b : ℤ) : ℚ) := by
      push_cast
      nlinarith [h1, hw, h2]
    simp only [pyInt]
    rw [if_pos hsum, floor_div30]
    congr 1
    push_cast
    ring
  cases t with
  | none => simpa [calculate_water_goal, weather_bonus_spec] using key 0 le_rfl
  | some temp =>
    by_cases h30 : 30 < temp
    · simpa [calculate_water_goal, weather_bonus_spec, h30] using key 1000 (by norm_num)
    · by_cases h25 : 25 < temp
      · simpa [calculate_water_goal, weather_bonus_spec, h30, h25] using key 500 (by norm_num)
      · simpa [calculate_water_goal, weather_bonus_spec, h30, h25] using key 0 le_rfl

/-- C1: over the documented input ranges, `calculate_water_goal` returns
`floor(weight*30 + floor(activity/30)*500 + weather_bonus)` with the
weather bonus 1000 above 30 degrees, 500 above 25, else (or unknown) 0;
`calculate_calorie_goal` returns `int(10*w + 6.25*h - 5*age + activity*5)`
truncated to an integer; and `water_goal_ml(70, 45, 28) = 3100`. Both
functions are pure total Lean functions. -/
theorem goal_calculators_spec (w h : ℚ) (ag act : ℤ) (t : Option ℚ)
    (hw : 0 < w) (hact : 0 ≤ act) :
    calculate_water_goal w act t =
      ⌊w * 30 + ((⌊(act : ℚ) / 30⌋ : ℤ) : ℚ) * 500 + ((weather_bonus_spec t : ℤ) : ℚ)⌋
    ∧ calculate_calorie_goal w h ag act =
      pyInt (10 * w + 6.25 * h - 5 * (ag : ℚ) + (act : ℚ) * 5)
    ∧ calculate_water_goal 70 45 (some 28) = 3100 := by
  refine ⟨water_goal_floor w act t hw hact, ?_, ?_⟩
  · unfold calculate_calorie_goal
    push_cast
    ring
  · norm_num [calculate_water_goal, pyInt, show Int.fdiv 45 30 = 1 by decide]

/-- Witness for C1 at weight 70, height 175, age 30, activity 45,
temperature 28. -/
theorem goal_calculators_spec_witness :
    (0:ℚ) < 70 ∧ (0:ℤ) ≤ 45 ∧
    (calculate_water_goal 70 45 (some 28) =
        ⌊(70:ℚ) * 30 + ((⌊((45:ℤ) : ℚ) / 30⌋ : ℤ) : ℚ) * 500 +
          ((weather_bonus_spec (some 28) : ℤ) : ℚ)⌋
      ∧ calculate_calorie_goal 70 175 30 45 =
        pyInt (10 * 70 + 6.25 * 175 - 5 * ((30:ℤ) : ℚ) + ((45:ℤ) : ℚ) * 5)
      ∧ calculate_water_goal 70 45 (some 28) = 3100) :=
  ⟨by norm_num, by norm_num,
    goal_calculators_spec 70 175 30 45 (some 28) (by norm_num) (by norm_num)⟩

/-- C2 counterexample: the calorie goal at (70, 175, 30, 0) is not 1243. -/
theorem calorie_goal_1243_counterexample :
    calculate_calorie_goal 70 175 30 0 ≠ 1243 := by
  norm_num [calculate_calorie_goal, pyInt]

/-- C2 amended: `calorie_goal_kcal(70, 175, 30, 0)` equals
`int(10*70 + 6.25*175 - 5*30) = int(1643.75) = 1643`, not 1243. -/
theorem calorie_goal_example_amended :
    calculate_calorie_goal 70 175 30 0 = pyInt (10 * 70 + 6.25 * 175 - 5 * 30)
    ∧ calculate_calorie_goal 70 175 30 0 = 1643 := by
  constructor
  · norm_num [calculate_calorie_goal, pyInt]
  · norm_num [calculate_calorie_goal, pyInt]

/-- C4: for every workout type and positive minutes, `cmd_log_workout`
adds `rate * minutes` burned calories, where the rate is the catalog rate
or 5 for an unrecognized type (the command still succeeds), and raises the
water goal by exactly `200 * ceil(minutes/30)`; in particular
`log_workout("бег", 45)` adds 450 burned calories and 400 ml of water
goal. -/
theorem log_workout_spec (wtype mtext : String) (minutes : ℤ)
    (st : BotState) (u : UserData)
    (hu : st.user = some u) (hp : pyIntParse mtext = some minutes)
    (hm : 0 < minutes) :
    cmd_log_workout (some (wtype, mtext)) st =
      (Reply.logged,
        { st with
            user := some { u with
              burned_calories := u.burned_calories +
                ((WORKOUT_CALORIES.lookup wtype).getD 5) * minutes,
              water_goal := u.water_goal + 200 * ⌈(minutes : ℚ) / 30⌉ } })
    ∧ cmd_log_workout (some ("бег", "45")) sampleState =
      (Reply.logged,
        { sampleState with
            user := some { sampleUser with
              burned_calories := sampleUser.burned_calories + 450,
              water_goal := sampleUser.water_goal + 400 } }) := by
  constructor
  · simp only [cmd_log_workout, hu, hp]
    rw [if_neg (by omega : ¬ minutes ≤ 0)]
    rw [← extra_water_eq_ceil minutes]
  · simp +decide [cmd_log_workout, sampleState, sampleUser, WORKOUT_CALORIES,
      List.lookup, pyIntParse, pyIntAux, parseIntCore, allDigits, digitsVal]

/-- Witness for C4: the run `log_workout("бег", 45)` on the sample state. -/
theorem log_workout_spec_witness :
    sampleState.user = some sampleUser ∧ pyIntParse ("45") = some 45 ∧
    (0:ℤ) < 45 ∧
    cmd_log_workout (some ("бег", "45")) sampleState =
      (Reply.logged,
        { sampleState with
            user := some { sampleUser with
              burned_calories := sampleUser.burned_calories +
                ((WORKOUT_CALORIES.lookup ("бег")).getD 5) * 45,
              water_goal := sampleUser.water_goal + 200 * ⌈((45:ℤ) : ℚ) / 30⌉ } }) :=
  ⟨rfl, by decide, by norm_num,
    (log_workout_spec ("бег") ("45") 45 sampleState sampleUser rfl
      (by decide) (by norm_num)).1⟩

/-- C9: with no profile, `log_water`, `log_food`, `log_workout` and
`check_progress` all reply that the profile is required, create no
profile, and leave the whole per-user state unchanged. -/
theorem profile_required_guard (sim : String → String → ℚ) (ext : ExtOutcome)
    (arg : Option String) (args2 : Option (String × String)) (st : BotState)
    (hu : st.user = none) :
    cmd_log_water arg st = (Reply.profileRequired, st)
    ∧ cmd_log_food sim ext arg st = (Reply.profileRequired, st)
    ∧ cmd_log_workout args2 st = (Reply.profileRequired, st)
    ∧ cmd_check_progress st = (Reply.profileRequired, st) := by
  refine ⟨?_, ?_, ?_, ?_⟩ <;>
    simp only [cmd_log_water, cmd_log_food, cmd_log_workout, cmd_check_progress, hu]

/-- Witness for C9: a fresh state with no profile. -/
theorem profile_required_guard_witness :
    freshState.user = none
    ∧ cmd_log_water (some ("250")) freshState = (Reply.profileRequired, freshState)
    ∧ cmd_log_food sim0 ExtOutcome.failure (some ("банан")) freshState =
        (Reply.profileRequired, freshState)
    ∧ cmd_log_workout (some ("бег", "45")) freshState =
        (Reply.profileRequired, freshState)
    ∧ cmd_check_progress freshState = (Reply.profileRequired, freshState) :=
  ⟨rfl, (profile_required_guard sim0 ExtOutcome.failure (some ("250"))
      (some ("бег", "45")) freshState rfl).1,
    (profile_required_guard sim0 ExtOutcome.failure (some ("банан"))
      (some ("бег", "45")) freshState rfl).2.1,
    (profile_required_guard sim0 ExtOutcome.failure (some ("250"))
      (some ("бег", "45")) freshState rfl).2.2.1,
    (profile_required_guard sim0 ExtOutcome.failure (some ("250"))
      (some ("бег", "45")) freshState rfl).2.2.2⟩

/-- Any `cmd_log_food` call either leaves the state unchanged or enters
the grams dialog with a nonzero calorie value stored. -/
theorem log_food_dichotomy (sim : String → String → ℚ) (ext : ExtOutcome)
    (st : BotState) (arg : Option String) (r : Reply) (st2 : BotState)
    (h : cmd_log_food sim ext arg st = (r, st2)) :
    st2 = st ∨ ∃ e : FoodEntry, e.calories ≠ 0 ∧
      st2 = { st with
        fsmState := some DialogState.waitingForGrams,
        fsmData := { st.fsmData with
          food_name := some e.name,
          food_calories := some e.calories } } := by
  simp only [cmd_log_food] at h
  cases hsu : st.user with
  | none =>
    simp only [hsu] at h
    injection h with h1 h2
    exact Or.inl h2.symm
  | some u =>
    simp only [hsu] at h
    cases arg with
    | none =>
      injection h with h1 h2
      exact Or.inl h2.symm
    | some name =>
      cases hres : get_food_info sim ext name with
      | none =>
        simp only [hres] at h
        injection h with h1 h2
        exact Or.inl h2.symm
      | some info =>
        simp only [hres] at h
        by_cases hc : info.calories = 0
        · rw [if_pos hc] at h
          injection h with h1 h2
          exact Or.inl h2.symm
        · rw [if_neg hc] at h
          injection h with h1 h2
          exact Or.inr ⟨info, hc, h2.symm⟩

/-- The grams step with a nonzero stored calorie value and positive grams
logs exactly `calories/100 * grams`, which is nonzero, and clears the
session. -/
theorem grams_step (st : BotState) (u : UserData) (c g : ℚ) (text : String)
    (hu : st.user = some u) (hfc : st.fsmData.food_calories = some c)
    (hc : c ≠ 0) (hparse : parseFloatField text = some g) (hg : 0 < g) :
    process_food_grams text st =
      (Reply.logged,
        { st with
            user := some { u with logged_calories := u.logged_calories + c / 100 * g },
            fsmState := none, fsmData := emptyFSMData })
    ∧ c / 100 * g ≠ 0 := by
  constructor
  · simp only [process_food_grams, hu, hfc, hparse]
    rw [if_neg (not_le.mpr hg)]
  · exact mul_ne_zero (div_ne_zero hc (by norm_num)) (ne_of_gt hg)

/-- C10: resolving "чай" yields the local entry with 0 calories; with a
profile present, `log_food` then reports the product as not found and does
not enter the grams dialog; every `cmd_log_food` call either changes
nothing or enters the grams dialog with a nonzero calorie value; and the
grams step with a nonzero stored calorie value never logs 0 kcal for a
positive grams input. -/
theorem zero_calorie_guard (sim : String → String → ℚ) (ext : ExtOutcome)
    (st : BotState) :
    get_food_info sim ext ("чай") = some ⟨"Чай без сахара", 0⟩
    ∧ (∀ u, st.user = some u →
        cmd_log_food sim ext (some ("чай")) st = (Reply.notFound, st))
    ∧ (∀ arg r st2, cmd_log_food sim ext arg st = (r, st2) →
        st2 = st ∨ ∃ e : FoodEntry, e.calories ≠ 0 ∧
          st2 = { st with
            fsmState := some DialogState.waitingForGrams,
            fsmData := { st.fsmData with
              food_name := some e.name,
              food_calories := some e.calories } })
    ∧ (∀ (text : String) (g c : ℚ) (u : UserData),
        st.user = some u → st.fsmData.food_calories = some c → c ≠ 0 →
        parseFloatField text = some g → 0 < g →
        process_food_grams text st =
          (Reply.logged,
            { st with
                user := some { u with
                  logged_calories := u.logged_calories + c / 100 * g },
                fsmState := none, fsmData := emptyFSMData })
          ∧ c / 100 * g ≠ 0) := by
  have htea : get_food_info sim ext ("чай") = some ⟨"Чай без сахара", 0⟩ := by
    simp +decide [get_food_info, find_in_local_db, exact_lookup, pyStrip,
      LOCAL_FOOD_DATABASE, List.lookup]
  refine ⟨htea, ?_, ?_, ?_⟩
  · intro u hu
    simp +decide [cmd_log_food, hu, htea]
  · intro arg r st2 h
    exact log_food_dichotomy sim ext st arg r st2 h
  · intro text g c u hu hfc hc hparse hg
    exact grams_step st u c g text hu hfc hc hparse hg

/-- Witness for C10: the "чай" rejection on the sample state and a
150 g entry at 89 kcal per 100 g, which logs 133.5 kcal. -/
theorem zero_calorie_guard_witness :
    get_food_info sim0 ExtOutcome.failure ("чай") = some ⟨"Чай без сахара", 0⟩
    ∧ cmd_log_food sim0 ExtOutcome.failure (some ("чай")) sampleState =
        (Reply.notFound, sampleState)
    ∧ process_food_grams ("150") gramsState =
        (Reply.logged,
          { gramsState with
              user := some { sampleUser with
                logged_calories := sampleUser.logged_calories + (89:ℚ) / 100 * 150 },
              fsmState := none, fsmData := emptyFSMData })
    ∧ (89:ℚ) / 100 * 150 ≠ 0 ∧ (89:ℚ) / 100 * 150 = 133.5 :=
  ⟨(zero_calorie_guard sim0 ExtOutcome.failure sampleState).1,
   (zero_calorie_guard sim0 ExtOutcome.failure sampleState).2.1 sampleUser rfl,
   ((zero_calorie_guard sim0 ExtOutcome.failure gramsState).2.2.2 ("150") 150 89
      sampleUser rfl rfl (by norm_num)
      (by simp +decide [parseFloatField, pyFloat, pyFloatAux, parseFloatCore,
            parseIntCore, allDigits, digitsVal, mapStr, commaToDot])
      (by norm_num)).1,
   ((zero_calorie_guard sim0 ExtOutcome.failure gramsState).2.2.2 ("150") 150 89
      sampleUser rfl rfl (by norm_num)
      (by simp +decide [parseFloatField, pyFloat, pyFloatAux, parseFloatCore,
            parseIntCore, allDigits, digitsVal, mapStr, commaToDot])
      (by norm_num)).2,
   by norm_num⟩

/-- C6: `get_food_info` tries the local database first (exact lookup, then
fuzzy), and a local hit is returned as-is without consulting the external
lookup; only when the local lookup misses is the external outcome used,
and a zero calorie value, a missing product list, a bad HTTP status, or a
raised exception or timeout all yield `none` (never propagating), while a
nonzero calorie value is accepted with its reported name. -/
theorem get_food_info_spec (sim : String → String → ℚ) (ext : ExtOutcome)
    (name : String) :
    find_in_local_db sim name =
      (match exact_lookup (pyStrip name) with
       | some v => some v
       | none => fuzzy_lookup sim (pyStrip name))
    ∧ (∀ e, find_in_local_db sim name = some e → get_food_info sim ext name = some e)
    ∧ (find_in_local_db sim name = none →
        ((ext = ExtOutcome.failure ∨ ext = ExtOutcome.badStatus ∨
            ext = ExtOutcome.noProducts → get_food_info sim ext name = none)
         ∧ (∀ p, ext = ExtOutcome.found p 0 → get_food_info sim ext name = none)
         ∧ (∀ p c, ext = ExtOutcome.found p c → c ≠ 0 →
             get_food_info sim ext name = some ⟨p.getD name, c⟩))) := by
  refine ⟨rfl, ?_, ?_⟩
  · intro e he
    simp only [get_food_info, he]
  · intro hnone
    refine ⟨?_, ?_, ?_⟩
    · rintro (rfl | rfl | rfl) <;> simp [get_food_info, hnone]
    · rintro p rfl
      simp [get_food_info, hnone]
    · rintro p c rfl hc
      simp only [get_food_info, hnone]
      rw [if_pos hc]

set_option maxRecDepth 40000 in
/-- Witness for C6: a local hit ("яблоко"), a local miss ("zzz") with a
failing external lookup, a zero-calorie external result, and an accepted
nonzero external result. -/
theorem get_food_info_spec_witness :
    find_in_local_db sim0 ("яблоко") = some ⟨"Яблоко", 52⟩
    ∧ get_food_info sim0 ExtOutcome.failure ("яблоко") = some ⟨"Яблоко", 52⟩
    ∧ find_in_local_db sim0 ("zzz") = none
    ∧ get_food_info sim0 ExtOutcome.failure ("zzz") = none
    ∧ get_food_info sim0 (ExtOutcome.found (some ("Zz")) 0) ("zzz") = none
    ∧ get_food_info sim0 (ExtOutcome.found (some ("Zz")) 95) ("zzz") =
        some ⟨"Zz", 95⟩ := by
  have hya : find_in_local_db sim0 ("яблоко") = some ⟨"Яблоко", 52⟩ := by
    simp +decide [find_in_local_db, exact_lookup, pyStrip, LOCAL_FOOD_DATABASE,
      List.lookup]
  have hz : find_in_local_db sim0 ("zzz") = none := by
    simp +decide [find_in_local_db, exact_lookup, fuzzy_lookup, fuzzyLoop, pyStrip,
      LOCAL_FOOD_DATABASE, List.lookup, sim0, pyIn, occursIn]
  exact ⟨hya,
    (get_food_info_spec sim0 ExtOutcome.failure ("яблоко")).2.1 _ hya,
    hz,
    ((get_food_info_spec sim0 ExtOutcome.failure ("zzz")).2.2 hz).1 (Or.inl rfl),
    ((get_food_info_spec sim0 (ExtOutcome.found (some ("Zz")) 0) ("zzz")).2.2 hz).2.1
      (some ("Zz")) rfl,
    ((get_food_info_spec sim0 (ExtOutcome.found (some ("Zz")) 95) ("zzz")).2.2 hz).2.2
      (some ("Zz")) 95 rfl (by norm_num)⟩

/-- The fuzzy loop is equivalent, for any seed, to: first substring match
in catalog order if one exists, otherwise the first-encountered highest
score above the 0.6 threshold. -/
theorem fuzzyLoop_eq_spec (sim : String → String → ℚ) (s : String)
    (l : List (String × FoodEntry)) :
    ∀ (bs : ℚ) (bm : Option FoodEntry),
      fuzzyLoop sim s l bs bm =
        (match l.find? (fun kv => subRel s kv.1) with
         | some kv => some kv.2
         | none =>
           let best := bestScan sim s l bs bm
           if (0.6 : ℚ) < best.1 then best.2 else none) := by
  induction l with
  | nil =>
    intro bs bm
    simp [fuzzyLoop, bestScan, List.find?]
  | cons kv rest ih =>
    intro bs bm
    obtain ⟨k, v⟩ := kv
    by_cases hsub : (pyIn k s || pyIn s k) = true
    · simp [fuzzyLoop, List.find?, subRel, hsub]
    · by_cases hlt : bs < sim s k
      · simp [fuzzyLoop, List.find?, subRel, hsub, hlt, bestScan, ih]
      · simp [fuzzyLoop, List.find?, subRel, hsub, hlt, bestScan, ih]

set_option maxRecDepth 40000 in
/-- C5: for every similarity function and every normalized input, the
fuzzy lookup returns the first catalog entry (in source order) whose key
is in a substring relation with the input, regardless of score; otherwise
the entry with the highest score, first encountered winning ties, and only
if that score exceeds 0.6; otherwise `none`. Within `find_in_local_db` the
fuzzy lookup runs after the exact dictionary lookup misses. Concretely,
with a similarity function that is constantly 0, the input
"хлеб черный" still resolves to the first substring match "хлеб". -/
theorem fuzzy_lookup_spec (sim : String → String → ℚ) (s name : String) :
    fuzzy_lookup sim s = fuzzySpec sim s
    ∧ find_in_local_db sim name =
        (match exact_lookup (pyStrip name) with
         | some v => some v
         | none => fuzzySpec sim (pyStrip name))
    ∧ fuzzy_lookup sim0 ("хлеб черный") = some ⟨"Хлеб белый", 265⟩ := by
  have h : ∀ t : String, fuzzy_lookup sim t = fuzzySpec sim t := by
    intro t
    rw [fuzzy_lookup, fuzzyLoop_eq_spec sim t LOCAL_FOOD_DATABASE 0 none]
    rfl
  refine ⟨h s, ?_, ?_⟩
  · rw [find_in_local_db]
    cases hx : exact_lookup (pyStrip name) with
    | none => simp [hx, h]
    | some v => simp [hx]
  · simp +decide [fuzzy_lookup, fuzzyLoop, LOCAL_FOOD_DATABASE, sim0, pyIn, occursIn]

/-- Digit status of a character is unchanged by writing dots as commas. -/
theorem isDigit_dotToComma (c : Char) : (dotToComma c).isDigit = c.isDigit := by
  by_cases hc : c = '.'
  · subst hc
    decide
  · simp [dotToComma, hc]

/-- An all-digit test is unchanged by writing dots as commas. -/
theorem all_isDigit_map (l : List Char) :
    (l.map dotToComma).all Char.isDigit = l.all Char.isDigit := by
  induction l with
  | nil => rfl
  | cons c t ih => simp [List.all_cons, isDigit_dotToComma, ih]

/-- Writing dots as commas does not change an all-digit list. -/
theorem map_dotToComma_of_digits (l : List Char) (h : l.all Char.isDigit = true) :
    l.map dotToComma = l := by
  induction l with
  | nil => rfl
  | cons c t ih =>
    simp only [List.all_cons, Bool.and_eq_true] at h
    have hc : c ≠ '.' := by
      intro e
      subst e
      exact absurd h.1 (by decide)
    simp [dotToComma, hc, ih h.2]

/-- The digit-list parse is unchanged by writing dots as commas. -/
theorem parseIntCore_map (l : List Char) :
    parseIntCore (l.map dotToComma) = parseIntCore l := by
  by_cases h : allDigits l = true
  · rw [map_dotToComma_of_digits l (by simpa [allDigits] using h)]
  · have hf : allDigits l = false := by
      cases hb : allDigits l
      · rfl
      · exact absurd hb h
    have h2 : allDigits (l.map dotToComma) = false := by
      show (l.map dotToComma).all Char.isDigit = false
      rw [all_isDigit_map]
      exact hf
    simp [parseIntCore, h2, hf]

/-- Python `int(...)` accepts the comma-written form of a text exactly
when it accepts the text itself, with the same value. -/
theorem pyIntParse_commaForm (s : String) :
    pyIntParse (commaForm s) = pyIntParse s := by
  show pyIntAux (s.data.map dotToComma) = pyIntAux s.data
  cases hl : s.data with
  | nil => rfl
  | cons c t =>
    by_cases hc : c = '.'
    · subst hc
      show pyIntAux (dotToComma '.' :: t.map dotToComma) = pyIntAux ('.' :: t)
      have hd : dotToComma '.' = ',' := by decide
      rw [hd]
      simp only [pyIntAux]
      norm_num
      have := parseIntCore_map ('.' :: t)
      rw [List.map_cons, hd] at this
      simpa using congrArg (Option.map (fun n : ℕ => (n : ℤ))) this
    · have hcc : dotToComma c = c := by simp [dotToComma, hc]
      simp only [List.map_cons, hcc, pyIntAux]
      by_cases h1 : c = '-'
      · simp [h1, parseIntCore_map t]
      · by_cases h2 : c = '+'
        · simp [h1, h2, parseIntCore_map t]
        · have := parseIntCore_map (c :: t)
          rw [List.map_cons, hcc] at this
          simp [h1, h2, this]

/-- `float(text.replace(",", "."))` accepts the comma-written form of a
text exactly when it accepts the text itself, with the same value. -/
theorem parseFloatField_commaForm (s : String) :
    parseFloatField (commaForm s) = parseFloatField s := by
  show pyFloat (mapStr commaToDot (mapStr dotToComma s)) = pyFloat (mapStr commaToDot s)
  have hfun : (commaToDot ∘ dotToComma) = commaToDot := by
    funext c
    by_cases h1 : c = '.'
    · subst h1
      decide
    · by_cases h2 : c = ','
      · subst h2
        decide
      · simp [Function.comp, commaToDot, dotToComma, h1, h2]
  have hmap : mapStr commaToDot (mapStr dotToComma s) = mapStr commaToDot s := by
    show String.mk ((s.data.map dotToComma).map commaToDot) =
      String.mk (s.data.map commaToDot)
    rw [List.map_map, hfun]
  rw [hmap]

/-- C8: at every numeric ProfileSetup step, the comma-written form of an
answer parses exactly when the dot-written form does, to the same value. -/
theorem decimal_comma_equivalence (step : DialogState) (s : String)
    (h : step = DialogState.weight ∨ step = DialogState.height ∨
         step = DialogState.age ∨ step = DialogState.activity) :
    stepRawParse step (commaForm s) = stepRawParse step s := by
  rcases h with rfl | rfl | rfl | rfl <;>
    simp [stepRawParse, parseFloatField_commaForm, pyIntParse_commaForm]

/-- Witness for C8: "70,5" and "70.5" parse identically at the weight
step, both to 70.5. -/
theorem decimal_comma_equivalence_witness :
    commaForm ("70.5") = "70,5"
    ∧ stepRawParse DialogState.weight (commaForm ("70.5")) =
        stepRawParse DialogState.weight ("70.5")
    ∧ stepRawParse DialogState.weight ("70,5") = some (141/2 : ℚ)
    ∧ stepRawParse DialogState.weight ("70.5") = some (141/2 : ℚ) :=
  ⟨by decide,
   decimal_comma_equivalence DialogState.weight ("70.5") (Or.inl rfl),
   by simp +decide [stepRawParse, parseFloatField, pyFloat, pyFloatAux,
        parseFloatCore, parseIntCore, allDigits, digitsVal, mapStr, commaToDot]
      norm_num,
   by simp +decide [stepRawParse, parseFloatField, pyFloat, pyFloatAux,
        parseFloatCore, parseIntCore, allDigits, digitsVal, mapStr, commaToDot]
      norm_num⟩

/-- Supporting fact for the C7 analysis, over the decimal-literal
fragment of answers: at each of the Weight, Height, Age and Activity
steps, an answer that fails to parse or is out of range replies with an
error and leaves the whole state (step and collected fields) unchanged,
while a valid answer stores exactly its parsed value and advances. The
float special value `"nan"`, outside this fragment, escapes the
weight/height range guards in the source; see `nan_passes_range_guard`. -/
theorem profile_step_invalid_reprompt (text : String) (st : BotState) :
    (stepAccepts DialogState.weight text = false →
      process_weight text st = (Reply.invalid, st))
    ∧ (stepAccepts DialogState.height text = false →
      process_height text st = (Reply.invalid, st))
    ∧ (stepAccepts DialogState.age text = false →
      process_age text st = (Reply.invalid, st))
    ∧ (stepAccepts DialogState.activity text = false →
      process_activity text st = (Reply.invalid, st))
    ∧ (stepAccepts DialogState.weight text = true →
      ∃ w, parseFloatField text = some w ∧
        process_weight text st =
          (Reply.askNext,
            { st with
                fsmState := some DialogState.height,
                fsmData := { st.fsmData with weight := some w } }))
    ∧ (stepAccepts DialogState.height text = true →
      ∃ h, parseFloatField text = some h ∧
        process_height text st =
          (Reply.askNext,
            { st with
                fsmState := some DialogState.age,
                fsmData := { st.fsmData with height := some h } }))
    ∧ (stepAccepts DialogState.age text = true →
      ∃ a, pyIntParse text = some a ∧
        process_age text st =
          (Reply.askNext,
            { st with
                fsmState := some DialogState.activity,
                fsmData := { st.fsmData with age := some a } }))
    ∧ (stepAccepts DialogState.activity text = true →
      ∃ a, pyIntParse text = some a ∧
        process_activity text st =
          (Reply.askNext,
            { st with
                fsmState := some DialogState.city,
                fsmData := { st.fsmData with activity := some a } })) := by
  refine ⟨?_, ?_, ?_, ?_, ?_, ?_, ?_, ?_⟩
  · intro hf
    simp only [stepAccepts] at hf
    cases hp : parseFloatField text with
    | none => simp [process_weight, hp]
    | some w =>
      rw [hp] at hf
      have hcond : w ≤ 0 ∨ 500 < w := by
        rcases not_and_or.mp (of_decide_eq_false hf) with h | h
        · exact Or.inl (not_lt.mp h)
        · exact Or.inr (not_le.mp h)
      simp only [process_weight, hp]
      rw [if_pos hcond]
  · intro hf
    simp only [stepAccepts] at hf
    cases hp : parseFloatField text with
    | none => simp [process_height, hp]
    | some w =>
      rw [hp] at hf
      have hcond : w ≤ 0 ∨ 300 < w := by
        rcases not_and_or.mp (of_decide_eq_false hf) with h | h
        · exact Or.inl (not_lt.mp h)
        · exact Or.inr (not_le.mp h)
      simp only [process_height, hp]
      rw [if_pos hcond]
  · intro hf
    simp only [stepAccepts] at hf
    cases hp : pyIntParse text with
    | none => simp [process_age, hp]
    | some n =>
      rw [hp] at hf
      have hcond : n ≤ 0 ∨ 150 < n := by
        have := of_decide_eq_false hf
        omega
      simp only [process_age, hp]
      rw [if_pos hcond]
  · intro hf
    simp only [stepAccepts] at hf
    cases hp : pyIntParse text with
    | none => simp [process_activity, hp]
    | some n =>
      rw [hp] at hf
      have hcond : n < 0 ∨ 1440 < n := by
        have := of_decide_eq_false hf
        omega
      simp only [process_activity, hp]
      rw [if_pos hcond]
  · intro ht
    simp only [stepAccepts] at ht
    cases hp : parseFloatField text with
    | none =>
      rw [hp] at ht
      exact absurd ht (by simp)
    | some w =>
      rw [hp] at ht
      have hw := of_decide_eq_true ht
      refine ⟨w, rfl, ?_⟩
      simp only [process_weight, hp]
      rw [if_neg]
      push_neg
      exact ⟨hw.1, hw.2⟩
  · intro ht
    simp only [stepAccepts] at ht
    cases hp : parseFloatField text with
    | none =>
      rw [hp] at ht
      exact absurd ht (by simp)
    | some w =>
      rw [hp] at ht
      have hw := of_decide_eq_true ht
      refine ⟨w, rfl, ?_⟩
      simp only [process_height, hp]
      rw [if_neg]
      push_neg
      exact ⟨hw.1, hw.2⟩
  · intro ht
    simp only [stepAccepts] at ht
    cases hp : pyIntParse text with
    | none =>
      rw [hp] at ht
      exact absurd ht (by simp)
    | some n =>
      rw [hp] at ht
      have hn := of_decide_eq_true ht
      refine ⟨n, rfl, ?_⟩
      simp only [process_age, hp]
      rw [if_neg]
      omega
  · intro ht
    simp only [stepAccepts] at ht
    cases hp : pyIntParse text with
    | none =>
      rw [hp] at ht
      exact absurd ht (by simp)
    | some n =>
      rw [hp] at ht
      have hn := of_decide_eq_true ht
      refine ⟨n, rfl, ?_⟩
      simp only [process_activity, hp]
      rw [if_neg]
      omega

/-- Concrete check of the decimal-fragment re-prompt property: "abc" is
rejected at the weight step without touching the state, and "70" is
accepted and stored. -/
theorem profile_step_invalid_reprompt_witness :
    stepAccepts DialogState.weight ("abc") = false
    ∧ process_weight ("abc") sampleState = (Reply.invalid, sampleState)
    ∧ stepAccepts DialogState.weight ("70") = true
    ∧ (∃ w, parseFloatField ("70") = some w ∧
        process_weight ("70") sampleState =
          (Reply.askNext,
            { sampleState with
                fsmState := some DialogState.height,
                fsmData := { sampleState.fsmData with weight := some w } })) := by
  have hf : stepAccepts DialogState.weight ("abc") = false := by
    simp +decide [stepAccepts, parseFloatField, pyFloat, pyFloatAux,
      parseFloatCore, parseIntCore, allDigits, digitsVal, mapStr, commaToDot]
  have ht : stepAccepts DialogState.weight ("70") = true := by
    simp +decide [stepAccepts, parseFloatField, pyFloat, pyFloatAux,
      parseFloatCore, parseIntCore, allDigits, digitsVal, mapStr, commaToDot]
  exact ⟨hf,
    (profile_step_invalid_reprompt ("abc") sampleState).1 hf,
    ht,
    (profile_step_invalid_reprompt ("70") sampleState).2.2.2.2.1 ht⟩

/-- C3: completing the ProfileSetup dialog with five valid answers stores,
in one step, a profile whose water goal is `calculate_water_goal` applied
to the given weight, activity and the city's (possibly unavailable)
temperature, and whose calorie goal is `calculate_calorie_goal` applied to
the given weight, height, age and activity; the ledger totals are zeroed
and the session is cleared — for every weather collaborator `gw`,
available or not. -/
theorem profile_setup_roundtrip (gw : String → Option ℚ) (t1 t2 t3 t4 t5 : String)
    (st : BotState) (w h : ℚ) (a act : ℤ)
    (_hst : st.fsmState = some DialogState.weight)
    (h1 : parseFloatField t1 = some w) (hw1 : 0 < w) (hw2 : w ≤ 500)
    (h2 : parseFloatField t2 = some h) (hh1 : 0 < h) (hh2 : h ≤ 300)
    (h3 : pyIntParse t3 = some a) (ha1 : 0 < a) (ha2 : a ≤ 150)
    (h4 : pyIntParse t4 = some act) (hc1 : 0 ≤ act) (hc2 : act ≤ 1440) :
    (process_city gw t5
      ((process_activity t4
        ((process_age t3
          ((process_height t2
            ((process_weight t1 st).2)).2)).2)).2)).2 =
      { user := some
          { weight := w, height := h, age := a, activity := act,
            city := pyStrip t5,
            water_goal := calculate_water_goal w act (gw (pyStrip t5)),
            calorie_goal := calculate_calorie_goal w h a act,
            logged_water := 0, logged_calories := 0, burned_calories := 0 },
        fsmState := none, fsmData := emptyFSMData } := by
  have hW : ¬(w ≤ 0 ∨ 500 < w) := by
    push_neg
    exact ⟨hw1, hw2⟩
  have hH : ¬(h ≤ 0 ∨ 300 < h) := by
    push_neg
    exact ⟨hh1, hh2⟩
  have hA : ¬(a ≤ 0 ∨ 150 < a) := by omega
  have hAct : ¬(act < 0 ∨ 1440 < act) := by omega
  simp only [process_weight, h1, if_neg hW, process_height, h2, if_neg hH,
    process_age, h3, if_neg hA, process_activity, h4, if_neg hAct, process_city]

/-- Witness for C3: answers 70, 175, 30, 45, Москва with a 28-degree
weather report; the stored goals are 3100 ml and 1868 kcal. -/
theorem profile_setup_roundtrip_witness :
    setupState.fsmState = some DialogState.weight
    ∧ parseFloatField ("70") = some 70
    ∧ parseFloatField ("175") = some 175
    ∧ pyIntParse ("30") = some 30
    ∧ pyIntParse ("45") = some 45
    ∧ (process_city gw28 ("Москва")
        ((process_activity ("45")
          ((process_age ("30")
            ((process_height ("175")
              ((process_weight ("70") setupState).2)).2)).2)).2)).2 =
      { user := some
          { weight := 70, height := 175, age := 30, activity := 45,
            city := pyStrip ("Москва"),
            water_goal := calculate_water_goal 70 45 (gw28 (pyStrip ("Москва"))),
            calorie_goal := calculate_calorie_goal 70 175 30 45,
            logged_water := 0, logged_calories := 0, burned_calories := 0 },
        fsmState := none, fsmData := emptyFSMData }
    ∧ calculate_water_goal 70 45 (gw28 (pyStrip ("Москва"))) = 3100
    ∧ calculate_calorie_goal 70 175 30 45 = 1868 := by
  have hp1 : parseFloatField ("70") = some 70 := by
    simp +decide [parseFloatField, pyFloat, pyFloatAux, parseFloatCore,
      parseIntCore, allDigits, digitsVal, mapStr, commaToDot]
  have hp2 : parseFloatField ("175") = some 175 := by
    simp +decide [parseFloatField, pyFloat, pyFloatAux, parseFloatCore,
      parseIntCore, allDigits, digitsVal, mapStr, commaToDot]
  have hp3 : pyIntParse ("30") = some 30 := by decide
  have hp4 : pyIntParse ("45") = some 45 := by decide
  refine ⟨rfl, hp1, hp2, hp3, hp4, ?_, ?_, ?_⟩
  · exact profile_setup_roundtrip gw28 ("70") ("175") ("30") ("45") ("Москва")
      setupState 70 175 30 45 rfl hp1 (by norm_num) (by norm_num)
      hp2 (by norm_num) (by norm_num) hp3 (by norm_num) (by norm_num)
      hp4 (by norm_num) (by norm_num)
  · norm_num [gw28, calculate_water_goal, pyInt, show Int.fdiv 45 30 = 1 by decide]
  · norm_num [calculate_calorie_goal, pyInt]

/-- C7 (code bug): the claim says an out-of-range answer at any
ProfileSetup step re-prompts without advancing, but the code's
weight/height rejection conditions, `weight <= 0 or weight > 500` and
`height <= 0 or height > 300`, evaluate to False at NaN (every Python
comparison with NaN is False), so the answer "nan" is accepted, stored
into the pending fields and the dialog advances. On finite values the
same conditions reject exactly the values outside (0, 500] and (0, 300],
which is the spec's stated intent. -/
theorem nan_passes_range_guard :
    weightRejected PyFloatVal.nan = false
    ∧ heightRejected PyFloatVal.nan = false
    ∧ (∀ q : ℚ, weightRejected (PyFloatVal.finite q) = false ↔ (0 < q ∧ q ≤ 500))
    ∧ (∀ q : ℚ, heightRejected (PyFloatVal.finite q) = false ↔ (0 < q ∧ q ≤ 300)) := by
  refine ⟨rfl, rfl, ?_, ?_⟩
  · intro q
    simp [weightRejected, pyLe, pyGt]
  · intro q
    simp [heightRejected, pyLe, pyGt]
